import Mathlib

/-
  Verification development for the cwrap command wrapper.

  Shallow embedding of the run-state core:
  - CmdRun / CmdState data (src/wlib/cmdstate.rs)
  - the subprocess executor CmdRun::run with its polling timeout loop,
    modelled over an explicit environment oracle (spawn result, try_wait
    results, kill result, wait_with_output result, wall-clock readings)
  - the failure ledger operations (reset, reset_runs, load)
  - the report-cadence policy (RunManager::handle_failure, backoff_match)
  - the lock retry loop (RunManager::lock)
  - the orchestration control flow of RunManager::run_instance / main
-/

namespace Cwrap

/-- Outcome record of one subprocess execution attempt
    (struct CmdRun in src/wlib/cmdstate.rs).  Floating-point times are
    modelled as rationals; the claims only assign and compare them. -/
structure CmdRun where
  exit_code : Int
  stdout : String
  stderr : String
  start_time : Rat
  run_time : Rat
  rust_err : Option String
deriving DecidableEq

/-- Persisted failure ledger (struct CmdState in src/wlib/cmdstate.rs). -/
structure CmdState where
  cmd : List String
  num_fails : Nat
  failures : List CmdRun
deriving DecidableEq

/-- CmdState::new: fresh ledger for a command. -/
def CmdState.new (cmd : List String) : CmdState :=
  { cmd := cmd, num_fails := 0, failures := [] }

/-- CmdState::reset: called after a good run; zeroes the counter and
    clears the buffered failures. -/
def CmdState.reset (s : CmdState) : CmdState :=
  { s with num_fails := 0, failures := [] }

/-- CmdState::reset_runs: called after a report is printed; clears only
    the buffered failures. -/
def CmdState.reset_runs (s : CmdState) : CmdState :=
  { s with failures := [] }

/-- CmdRun::rust_err: the degenerate record built for an
    execution-infrastructure failure (spawn/wait/kill failure). -/
def CmdRun.rust_err_result (err_msg : String) : CmdRun :=
  { exit_code := 0, stdout := "", stderr := "", start_time := 0,
    run_time := 0, rust_err := some err_msg }

/-- The caller's failure classification in RunManager::run_instance:
    run.exit_code != 0 || run.rust_err.is_some(). -/
def is_failure (r : CmdRun) : Bool :=
  r.exit_code != 0 || r.rust_err.isSome

/-! ## Process executor (CmdRun::run) -/

/-- Result of one proc.try_wait() call: child exited, still running, or
    the call itself errored. -/
inductive TryWaitRes where
  | done
  | running
  | err (e : String)
deriving DecidableEq

/-- Environment oracle for one execution attempt: everything the
    operating system answers during CmdRun::run.  tryWait i is the result
    of the i-th try_wait call inside the polling loop; finalTryWait is
    the separate try_wait call made after the loop; startTime,
    elapsedAtTimeout and elapsedAtEnd are the wall-clock readings taken
    at the corresponding SystemTime::now() call sites. -/
structure ExecEnv where
  spawnErr : Option String
  tryWait : Nat → TryWaitRes
  finalTryWait : TryWaitRes
  killErr : Option String
  waitOutput : Except String (Option Int × String × String)
  startTime : Rat
  elapsedAtTimeout : Rat
  elapsedAtEnd : Rat

/-- How the polling loop in CmdRun::run ended: break on child exit,
    loop condition run_time < timeout became false, try_wait errored,
    or the structural fuel ran out (never happens for the fuel used by
    runCmd, see pollLoop adequate-fuel lemmas). -/
inductive LoopExit where
  | brokeDone (run_time : Nat)
  | condFalse (run_time : Nat)
  | errored (e : String)
  | fuelOut
deriving DecidableEq

/-- The timeout polling loop of CmdRun::run:
    while run_time < timeout, try_wait; on Ok(Some) break, on Ok(None)
    add 100 ms and sleep, on Err return the rust_err record.  fuel is a
    structural bound on the number of loop-condition evaluations; runCmd
    passes timeout / 100 + 1, which is exact for the multiples of 1000
    it uses. -/
def pollLoop (env : ExecEnv) (timeout : Nat) : Nat → Nat → Nat → LoopExit
  | 0, _, _ => .fuelOut
  | fuel + 1, i, run_time =>
    if run_time < timeout then
      match env.tryWait i with
      | .done => .brokeDone run_time
      | .running => pollLoop env timeout fuel (i + 1) (run_time + 100)
      | .err e => .errored e
    else .condFalse run_time

/-- The tail of CmdRun::run: proc.wait_with_output(), building either the
    rust_err record or the normal record with
    exit_code = status.code().unwrap_or(-1). -/
def waitFinish (env : ExecEnv) : CmdRun :=
  match env.waitOutput with
  | .error e => CmdRun.rust_err_result ("Failure running child: " ++ e)
  | .ok (code, out, err) =>
    { exit_code := code.getD (-1), stdout := out, stderr := err,
      start_time := env.startTime, run_time := env.elapsedAtEnd,
      rust_err := none }

/-- The post-loop section of CmdRun::run: if the timeout was exceeded and
    a fresh try_wait still reports the child running, kill it; a
    successful kill yields the timeout record (exit_code -1, empty
    output, actual elapsed wall time), a failed kill yields the rust_err
    record; every other case falls through to wait_with_output. -/
def afterLoop (env : ExecEnv) (timeout run_time : Nat) : CmdRun :=
  if 0 < timeout ∧ timeout ≤ run_time then
    match env.finalTryWait with
    | .running =>
      match env.killErr with
      | none =>
        { exit_code := -1, stdout := "", stderr := "",
          start_time := env.startTime, run_time := env.elapsedAtTimeout,
          rust_err := some ("Command reached timeout of "
            ++ toString (timeout / 1000) ++ " secs") }
      | some e => CmdRun.rust_err_result ("Failed to kill subprocess! " ++ e)
    | _ => waitFinish env
  else waitFinish env

/-- CmdRun::run over the environment oracle, with the configured timeout
    in seconds (converted to milliseconds as in the source). -/
def runCmd (env : ExecEnv) (timeout_secs : Nat) : CmdRun :=
  match env.spawnErr with
  | some e => CmdRun.rust_err_result ("Failed to spawn child: " ++ e)
  | none =>
    let timeout := timeout_secs * 1000
    let loopRes :=
      if 0 < timeout then pollLoop env timeout (timeout / 100 + 1) 0 0
      else LoopExit.condFalse 0
    match loopRes with
    | .errored e => CmdRun.rust_err_result ("Failure to spawn child: " ++ e)
    | .fuelOut => CmdRun.rust_err_result "unreachable: loop fuel exhausted"
    | .brokeDone rt => afterLoop env timeout rt
    | .condFalse rt => afterLoop env timeout rt

/-! ## Report-cadence policy (RunManager::handle_failure, backoff_match) -/

/-- The doubling loop of RunManager::backoff_match: count starts at the
    configured threshold and doubles while count <= n; returns true when
    it hits n exactly.  fuel counts loop iterations; none models the
    non-terminating run of the Rust loop (fuel exhaustion). -/
def backoffLoop (n : Nat) : Nat → Nat → Option Bool
  | 0, _ => none
  | fuel + 1, count =>
    if count ≤ n then
      if count = n then some true
      else backoffLoop n fuel (count * 2)
    else some false

/-- RunManager::backoff_match with threshold and the current counter n.
    Fuel n + 2 is sufficient whenever threshold >= 1 (the count grows by
    at least 1 per iteration), see the adequacy lemmas below. -/
def backoff_match (threshold n : Nat) : Option Bool :=
  backoffLoop n (n + 2) threshold

/-- Decision of RunManager::handle_failure: emit a report now, or buffer
    the failure. -/
inductive FailAction where
  | report
  | buffer
deriving DecidableEq

/-- The report/buffer decision of RunManager::handle_failure over the
    already-incremented counter n.  none models a panic or divergence of
    the Rust code: the modulo rule divides by the threshold (panic when
    it is 0) and the backoff loop does not terminate for threshold 0 and
    n >= 1.  The branch structure mirrors the source if/else chain with
    its short-circuit evaluation order. -/
def failDecision (backoff first_fail : Bool) (threshold n : Nat) :
    Option FailAction :=
  if backoff then
    match backoff_match threshold n with
    | none => none
    | some true => some .report
    | some false =>
      -- rule 2 evaluates n % threshold before && !backoff short-circuits
      if threshold = 0 then none
      else if first_fail ∧ n = 1 then some .report
      else some .buffer
  else
    if threshold = 0 then none
    else if n % threshold = 0 then some .report
    else if first_fail ∧ n = 1 then some .report
    else some .buffer

/-- RunManager::print_failure_report at the state level: the rendered
    report lists the buffered failures followed by the current one, then
    reset_runs clears the buffer. -/
def print_failure_report (s : CmdState) (run : CmdRun) :
    CmdState × List CmdRun :=
  (s.reset_runs, s.failures ++ [run])

/-- RunManager::handle_failure at the state level: increment the counter,
    decide, then either report (returning the rendered run list) or push
    the run onto the buffer.  none models the panic/divergence cases of
    failDecision. -/
def handle_failure (backoff first_fail : Bool) (threshold : Nat)
    (s : CmdState) (run : CmdRun) :
    Option (CmdState × Option (List CmdRun)) :=
  let s1 : CmdState := { s with num_fails := s.num_fails + 1 }
  match failDecision backoff first_fail threshold (s.num_fails + 1) with
  | none => none
  | some .report =>
    let pr := print_failure_report s1 run
    some (pr.1, some pr.2)
  | some .buffer =>
    some ({ s1 with failures := s1.failures ++ [run] }, none)

/-- The ledger update performed by RunManager::run_instance after the
    command ran: handle_failure on a failed run, CmdState::reset on a
    successful one. -/
def run_instance_update (backoff first_fail : Bool) (threshold : Nat)
    (s : CmdState) (run : CmdRun) : Option CmdState :=
  if is_failure run then
    (handle_failure backoff first_fail threshold s run).map (·.1)
  else some (CmdState.reset s)

/-! ## Lock retry loop (RunManager::lock) -/

/-- Observable trace of RunManager::lock: how many statefile.lock()
    attempts were made, how many retry-interval sleeps happened, and
    whether the final attempt succeeded. -/
structure LockTrace where
  attempts : Nat
  sleeps : Nat
  ok : Bool
deriving DecidableEq

/-- The while loop of RunManager::lock.  The Rust loop runs
    while tries > try_count with try_count starting at -1; with
    i = try_count + 1 the condition is i <= tries, so left = tries + 1 - i
    counts the remaining permitted iterations and is the structural
    argument.  Each iteration attempts the lock; on error with tries > 0
    it sleeps and retries, otherwise it breaks with the attempt's
    result. -/
def lockAux (attemptOk : Nat → Bool) (tries : Nat) :
    Nat → Nat → Nat → Nat → Bool → LockTrace
  | 0, _, attempts, sleeps, lastOk => ⟨attempts, sleeps, lastOk⟩
  | left + 1, i, attempts, sleeps, _ =>
    let ok := attemptOk i
    if !ok && decide (0 < tries) then
      lockAux attemptOk tries left (i + 1) (attempts + 1) (sleeps + 1) ok
    else ⟨attempts + 1, sleeps, ok⟩

/-- RunManager::lock over the per-attempt outcome oracle and the
    configured retry count. -/
def lock_run (attemptOk : Nat → Bool) (num_retries : Nat) : LockTrace :=
  lockAux attemptOk num_retries (num_retries + 1) 0 0 0 true

/-! ## Orchestrator control flow (run_instance / main) -/

/-- What one invocation did: exited the process early, or executed the
    wrapped command (with or without the lock held). -/
inductive InstanceFlow where
  | exited (code : Nat)
  | ran (withLock : Bool)
deriving DecidableEq

/-- Whether the wrapped command was executed in this flow. -/
def commandRan : InstanceFlow → Bool
  | .exited _ => false
  | .ran _ => true

/-- Control flow of RunManager::run_instance around the lock: when the
    lock argument is set, a failed lock() exits with status 1 unless
    ignore_retry_fails is set, in which case execution falls through to
    CmdRun::run without the lock held. -/
def run_instance_flow (lockArg lockOk ignore_retry_fails : Bool) :
    InstanceFlow :=
  if lockArg then
    if lockOk then .ran true
    else if ignore_retry_fails then .ran false
    else .exited 1
  else .ran false

/-! ## Persisted state loading (CmdState::load, RunManager::new) -/

/-- Kind of I/O error from StateFile::get_contents_string: the state
    file is absent, or present but unreadable for some other reason
    (permissions and the like). -/
inductive ReadErr where
  | notFound
  | otherErr
deriving DecidableEq

/-- CmdState::load: any read error is logged at debug level and treated
    as no content, returning Ok(None); content that fails to parse is a
    SerDeError. -/
def CmdState.load (readRes : Except ReadErr String)
    (parse : String → Option CmdState) : Except String (Option CmdState) :=
  match readRes with
  | .error _ => .ok none
  | .ok s =>
    match parse s with
    | some v => .ok (some v)
    | none => .error "Failed to deserialize the content"

/-- Outcome of RunManager::new loading the state: a usable CmdState, or
    the panic taken on a deserialization error. -/
inductive NewOutcome where
  | ok (s : CmdState)
  | panicked
deriving DecidableEq

/-- The CmdState initialisation in RunManager::new: loaded state if any,
    a fresh state when load returns None, and a panic on a load error. -/
def managerNewState (readRes : Except ReadErr String)
    (parse : String → Option CmdState) (cmd : List String) : NewOutcome :=
  match CmdState.load readRes parse with
  | .ok (some v) => .ok v
  | .ok none => .ok (CmdState.new cmd)
  | .error _ => .panicked

/-! ## Lemmas about the backoff loop and the report decision -/

/-- With a positive starting count and enough fuel, the doubling loop of
    backoff_match terminates and answers whether n is count times a power
    of two. -/
theorem backoffLoop_spec (n : Nat) :
    ∀ fuel count, 1 ≤ count → 1 ≤ fuel → n + 2 ≤ fuel + count →
      ∃ b, backoffLoop n fuel count = some b ∧
        (b = true ↔ ∃ k, n = count * 2 ^ k) := by
  intro fuel
  induction fuel with
  | zero => intro count _ hf _; omega
  | succ fuel ih =>
    intro count hc _ hbound
    by_cases hle : count ≤ n
    · by_cases heq : count = n
      · refine ⟨true, by simp [backoffLoop, hle, heq], ?_⟩
        simp only [true_iff]
        exact ⟨0, by simp [heq]⟩
      · have h2c : 1 ≤ count * 2 := by omega
        have hlt : count < n := lt_of_le_of_ne hle heq
        have hf2 : 1 ≤ fuel := by omega
        have hb2 : n + 2 ≤ fuel + count * 2 := by omega
        obtain ⟨b, hb, hiff⟩ := ih (count * 2) h2c hf2 hb2
        refine ⟨b, by simpa [backoffLoop, hle, heq] using hb, ?_⟩
        rw [hiff]
        constructor
        · rintro ⟨k, hk⟩
          exact ⟨k + 1, by rw [hk]; ring⟩
        · rintro ⟨k, hk⟩
          cases k with
          | zero => simp at hk; omega
          | succ j => exact ⟨j, by rw [hk]; ring⟩
    · refine ⟨false, by simp [backoffLoop, hle], ?_⟩
      simp only [Bool.false_eq_true, false_iff]
      rintro ⟨k, hk⟩
      have hp : count ≤ count * 2 ^ k :=
        Nat.le_mul_of_pos_right count (Nat.pos_pow_of_pos k (by omega))
      omega

/-- backoff_match with threshold >= 1 terminates and recognises exactly
    the values threshold times a power of two. -/
theorem backoff_match_spec (threshold n : Nat) (ht : 1 ≤ threshold) :
    ∃ b, backoff_match threshold n = some b ∧
      (b = true ↔ ∃ k, n = threshold * 2 ^ k) :=
  backoffLoop_spec n (n + 2) threshold ht (by omega) (by omega)

/-- With threshold 0 and a positive counter, the doubling loop never
    terminates: count stays 0 forever, modelled as fuel exhaustion at
    every fuel. -/
theorem backoffLoop_zero (n : Nat) (hn : 1 ≤ n) :
    ∀ fuel, backoffLoop n fuel 0 = none := by
  have h0 : ¬ (0 = n) := by omega
  intro fuel
  induction fuel with
  | zero => simp [backoffLoop]
  | succ fuel ih => simpa [backoffLoop, h0] using ih

/-- The report decision fires exactly on the first-match disjunction of
    the three cadence rules, for a positive threshold. -/
theorem failDecision_report_iff (b f : Bool) (t n : Nat) (ht : 1 ≤ t) :
    failDecision b f t n = some FailAction.report ↔
      ((b = true ∧ ∃ k, n = t * 2 ^ k) ∨ (b = false ∧ n % t = 0)
        ∨ (f = true ∧ n = 1)) := by
  have ht0 : ¬ t = 0 := by omega
  obtain ⟨bm, hbm, hiff⟩ := backoff_match_spec t n ht
  cases b with
  | true =>
    cases bm with
    | true =>
      have hk : ∃ k, n = t * 2 ^ k := hiff.mp rfl
      simp [failDecision, hbm, hk]
    | false =>
      have hk : ¬ ∃ k, n = t * 2 ^ k := by
        intro h
        exact Bool.false_ne_true (hiff.mpr h)
      by_cases hfn : f = true ∧ n = 1
      · obtain ⟨hf1, hn1⟩ := hfn
        subst hn1
        simp [failDecision, hbm, ht0, hf1, hk]
      · simp [failDecision, hbm, ht0, hfn, hk]
  | false =>
    by_cases hmod : n % t = 0
    · simp [failDecision, ht0, hmod]
    · by_cases hfn : f = true ∧ n = 1
      · obtain ⟨hf1, hn1⟩ := hfn
        subst hn1
        simp [failDecision, ht0, hmod, hf1]
      · simp [failDecision, ht0, hmod, hfn]

/-- For a positive threshold the decision is total: it is report or
    buffer, never the panic/divergence value. -/
theorem failDecision_total (b f : Bool) (t n : Nat) (ht : 1 ≤ t) :
    failDecision b f t n = some FailAction.report
      ∨ failDecision b f t n = some FailAction.buffer := by
  have ht0 : ¬ t = 0 := by omega
  obtain ⟨bm, hbm, _⟩ := backoff_match_spec t n ht
  cases b with
  | true =>
    cases bm with
    | true => simp [failDecision, hbm]
    | false =>
      by_cases hfn : f = true ∧ n = 1
      · obtain ⟨hf1, hn1⟩ := hfn
        subst hn1
        simp [failDecision, hbm, ht0, hf1]
      · simp [failDecision, hbm, ht0, hfn]
  | false =>
    by_cases hmod : n % t = 0
    · simp [failDecision, ht0, hmod]
    · by_cases hfn : f = true ∧ n = 1
      · obtain ⟨hf1, hn1⟩ := hfn
        subst hn1
        simp [failDecision, ht0, hmod, hf1]
      · simp [failDecision, ht0, hmod, hfn]

/-- C1: for threshold >= 1 and an already-incremented counter n >= 1, the
    failure decision reports exactly when one of the three cadence rules
    matches in first-match order (backoff power-of-two rule, else plain
    modulo rule, else first-failure rule), otherwise it buffers the run
    and emits no report; in particular with threshold 3, backoff enabled
    and first-fail disabled, reports fire exactly at n = 3 * 2 ^ k. -/
theorem c1_failure_decision_cadence (b f : Bool) (t n : Nat)
    (s : CmdState) (run : CmdRun) (ht : 1 ≤ t) (_hn : 1 ≤ n) :
    (failDecision b f t n = some FailAction.report ↔
      ((b = true ∧ ∃ k, n = t * 2 ^ k) ∨ (b = false ∧ n % t = 0)
        ∨ (f = true ∧ n = 1)))
    ∧ (failDecision b f t n = some FailAction.report
        ∨ failDecision b f t n = some FailAction.buffer)
    ∧ (s.num_fails + 1 = n → failDecision b f t n = some FailAction.buffer →
        handle_failure b f t s run =
          some ({ s with num_fails := n, failures := s.failures ++ [run] },
            none))
    ∧ (failDecision true false 3 n = some FailAction.report ↔
        ∃ k, n = 3 * 2 ^ k) := by
  refine ⟨failDecision_report_iff b f t n ht,
    failDecision_total b f t n ht, ?_, ?_⟩
  · intro hsn hbuf
    simp [handle_failure, hsn, hbuf]
  · rw [failDecision_report_iff true false 3 n (by omega)]
    simp

/-- Concrete check for C1: threshold 3, backoff on, first-fail off, sixth
    consecutive failure reports (6 = 3 * 2 ^ 1). -/
theorem c1_failure_decision_cadence_witness :
    failDecision true false 3 6 = some FailAction.report :=
  ((c1_failure_decision_cadence true false 3 6
      { cmd := ["x"], num_fails := 5, failures := [] }
      (CmdRun.rust_err_result "e") (by omega) (by omega)).2.2.2).mpr
    ⟨1, by norm_num⟩

/-- C10: with threshold >= 1 the doubling loop terminates (its fuelled
    model yields a value at every sufficient fuel) and the whole decision
    is well-defined; with threshold 0 and a positive counter the loop
    diverges at every fuel and the decision is the panic/divergence
    value, so threshold >= 1 is a genuine precondition. -/
theorem c10_threshold_precondition (b f : Bool) (t n : Nat) :
    ((1 ≤ t → ∀ fuel, n + 2 ≤ fuel → ∃ r, backoffLoop n fuel t = some r)
    ∧ (1 ≤ t → failDecision b f t n ≠ none))
    ∧ ((1 ≤ n → ∀ fuel, backoffLoop n fuel 0 = none)
    ∧ (1 ≤ n → failDecision b f 0 n = none)) := by
  refine ⟨⟨?_, ?_⟩, fun hn => backoffLoop_zero n hn, ?_⟩
  · intro ht fuel hf
    obtain ⟨r, hr, _⟩ := backoffLoop_spec n fuel t ht (by omega) (by omega)
    exact ⟨r, hr⟩
  · intro ht
    rcases failDecision_total b f t n ht with h | h <;> simp [h]
  · intro hn
    cases b with
    | true =>
      have hz : backoff_match 0 n = none := backoffLoop_zero n hn (n + 2)
      simp [failDecision, hz]
    | false => simp [failDecision]

/-- Concrete check for C10: threshold 1 terminates and decides at
    counter 1; threshold 0 diverges at counter 1. -/
theorem c10_threshold_precondition_witness :
    (∃ r, backoffLoop 1 3 1 = some r)
    ∧ failDecision true true 1 1 ≠ none
    ∧ backoffLoop 1 5 0 = none
    ∧ failDecision true true 0 1 = none := by
  have h := c10_threshold_precondition true true 1 1
  exact ⟨h.1.1 (by omega) 3 (by omega), h.1.2 (by omega),
    h.2.1 (by omega) 5, h.2.2 (by omega)⟩

/-! ## Lemmas about the executor -/

/-- When every poll reports the child still running, the timeout loop
    runs the clock out: with adequate fuel it ends with the loop
    condition false at an accumulated time of at least the timeout. -/
theorem pollLoop_all_running (env : ExecEnv) (timeout : Nat)
    (hr : ∀ i, env.tryWait i = TryWaitRes.running) :
    ∀ fuel, 1 ≤ fuel → ∀ i rt, timeout ≤ rt + 100 * (fuel - 1) →
      ∃ r, pollLoop env timeout fuel i rt = LoopExit.condFalse r
        ∧ timeout ≤ r := by
  intro fuel
  induction fuel with
  | zero => intro h; omega
  | succ fuel ih =>
    intro _ i rt hb
    by_cases hlt : rt < timeout
    · have hf1 : 1 ≤ fuel := by omega
      have hb2 : timeout ≤ (rt + 100) + 100 * (fuel - 1) := by omega
      obtain ⟨r, hrr, hler⟩ := ih hf1 (i + 1) (rt + 100) hb2
      exact ⟨r, by simpa [pollLoop, hlt, hr i] using hrr, hler⟩
    · exact ⟨rt, by simp [pollLoop, hlt], by omega⟩

/-- C4: when the timeout is positive, the child outlives every poll and
    the final check, and the kill succeeds, the executor returns the
    timeout record: exit code -1, empty captured output, an internal
    error naming the timeout in seconds, and a duration taken from the
    wall clock at that moment rather than the nominal timeout. -/
theorem c4_timeout_kill_record (env : ExecEnv) (ts : Nat) (hts : 1 ≤ ts)
    (hsp : env.spawnErr = none)
    (hr : ∀ i, env.tryWait i = TryWaitRes.running)
    (hfw : env.finalTryWait = TryWaitRes.running)
    (hk : env.killErr = none) :
    runCmd env ts =
      { exit_code := -1, stdout := "", stderr := "",
        start_time := env.startTime, run_time := env.elapsedAtTimeout,
        rust_err := some ("Command reached timeout of " ++ toString ts
          ++ " secs") } := by
  have hto : 0 < ts * 1000 := by omega
  have hfuel : 1 ≤ ts * 1000 / 100 + 1 := by omega
  have hbound : ts * 1000 ≤ 0 + 100 * ((ts * 1000 / 100 + 1) - 1) := by
    have hd : ts * 1000 / 100 = ts * 10 := by omega
    omega
  obtain ⟨r, hpoll, hler⟩ :=
    pollLoop_all_running env (ts * 1000) hr (ts * 1000 / 100 + 1) hfuel 0 0
      hbound
  have hdiv : ts * 1000 / 1000 = ts := by omega
  simp [runCmd, hsp, hto, hpoll, afterLoop, hler, hfw, hk, hdiv]

/-- Sample environment for the timeout scenario: the child never exits,
    the kill succeeds, the wall clock reads 2 seconds elapsed at the
    kill. -/
def sampleTimeoutEnv : ExecEnv :=
  { spawnErr := none, tryWait := fun _ => TryWaitRes.running,
    finalTryWait := TryWaitRes.running, killErr := none,
    waitOutput := Except.ok (some 0, "", ""), startTime := 5,
    elapsedAtTimeout := 2, elapsedAtEnd := 3 }

/-- Concrete check for C4: a 2-second timeout with a child that never
    exits yields the timeout record naming 2 seconds. -/
theorem c4_timeout_kill_record_witness :
    runCmd sampleTimeoutEnv 2 =
      { exit_code := -1, stdout := "", stderr := "",
        start_time := sampleTimeoutEnv.startTime,
        run_time := sampleTimeoutEnv.elapsedAtTimeout,
        rust_err := some ("Command reached timeout of " ++ toString 2
          ++ " secs") } :=
  c4_timeout_kill_record sampleTimeoutEnv 2 (by omega) rfl (fun _ => rfl)
    rfl rfl

/-- C3: every execution-infrastructure failure record (spawn failure,
    wait failure in the poll loop, kill failure) is the degenerate
    rust_err record with exit code 0, empty output, zero timings and the
    internal error set, and the caller's classification marks it a
    failure despite the zero exit code. -/
theorem c3_infrastructure_failure_records (msg e : String) (env : ExecEnv)
    (ts : Nat) :
    ((CmdRun.rust_err_result msg).exit_code = 0
      ∧ (CmdRun.rust_err_result msg).stdout = ""
      ∧ (CmdRun.rust_err_result msg).stderr = ""
      ∧ (CmdRun.rust_err_result msg).start_time = 0
      ∧ (CmdRun.rust_err_result msg).run_time = 0
      ∧ (CmdRun.rust_err_result msg).rust_err = some msg
      ∧ is_failure (CmdRun.rust_err_result msg) = true)
    ∧ (env.spawnErr = some e →
        runCmd env ts
          = CmdRun.rust_err_result ("Failed to spawn child: " ++ e))
    ∧ (env.spawnErr = none → 1 ≤ ts → env.tryWait 0 = TryWaitRes.err e →
        runCmd env ts
          = CmdRun.rust_err_result ("Failure to spawn child: " ++ e))
    ∧ (env.spawnErr = none → 1 ≤ ts →
        (∀ i, env.tryWait i = TryWaitRes.running) →
        env.finalTryWait = TryWaitRes.running → env.killErr = some e →
        runCmd env ts
          = CmdRun.rust_err_result ("Failed to kill subprocess! " ++ e)) := by
  refine ⟨by simp [CmdRun.rust_err_result, is_failure], ?_, ?_, ?_⟩
  · intro h
    simp [runCmd, h]
  · intro hsp hts hw
    have hto : 0 < ts * 1000 := by omega
    have hpoll : pollLoop env (ts * 1000) (ts * 1000 / 100 + 1) 0 0
        = LoopExit.errored e := by
      simp [pollLoop, hto, hw]
    simp [runCmd, hsp, hto, hpoll]
  · intro hsp hts hr hfw hk
    have hto : 0 < ts * 1000 := by omega
    have hfuel : 1 ≤ ts * 1000 / 100 + 1 := by omega
    have hbound : ts * 1000 ≤ 0 + 100 * ((ts * 1000 / 100 + 1) - 1) := by
      have hd : ts * 1000 / 100 = ts * 10 := by omega
      omega
    obtain ⟨r, hpoll, hler⟩ :=
      pollLoop_all_running env (ts * 1000) hr (ts * 1000 / 100 + 1) hfuel
        0 0 hbound
    simp [runCmd, hsp, hto, hpoll, afterLoop, hler, hfw, hk]

/-- Sample environment where spawning the child fails. -/
def spawnFailEnv : ExecEnv :=
  { spawnErr := some "x", tryWait := fun _ => TryWaitRes.running,
    finalTryWait := TryWaitRes.running, killErr := none,
    waitOutput := Except.ok (some 0, "", ""), startTime := 0,
    elapsedAtTimeout := 0, elapsedAtEnd := 0 }

/-- Sample environment where the first try_wait poll errors. -/
def waitFailEnv : ExecEnv :=
  { spawnErr := none, tryWait := fun _ => TryWaitRes.err "x",
    finalTryWait := TryWaitRes.running, killErr := none,
    waitOutput := Except.ok (some 0, "", ""), startTime := 0,
    elapsedAtTimeout := 0, elapsedAtEnd := 0 }

/-- Sample environment where the child outlives the timeout and the kill
    fails. -/
def killFailEnv : ExecEnv :=
  { spawnErr := none, tryWait := fun _ => TryWaitRes.running,
    finalTryWait := TryWaitRes.running, killErr := some "x",
    waitOutput := Except.ok (some 0, "", ""), startTime := 0,
    elapsedAtTimeout := 0, elapsedAtEnd := 0 }

/-- Concrete check for C3: the three infrastructure-failure paths at
    explicit environments, plus the failure classification of a rust_err
    record. -/
theorem c3_infrastructure_failure_records_witness :
    is_failure (CmdRun.rust_err_result "m") = true
    ∧ runCmd spawnFailEnv 1
        = CmdRun.rust_err_result ("Failed to spawn child: " ++ "x")
    ∧ runCmd waitFailEnv 1
        = CmdRun.rust_err_result ("Failure to spawn child: " ++ "x")
    ∧ runCmd killFailEnv 1
        = CmdRun.rust_err_result ("Failed to kill subprocess! " ++ "x") :=
  ⟨(c3_infrastructure_failure_records "m" "x" spawnFailEnv 1).1.2.2.2.2.2.2,
   (c3_infrastructure_failure_records "m" "x" spawnFailEnv 1).2.1 rfl,
   (c3_infrastructure_failure_records "m" "x" waitFailEnv 1).2.2.1 rfl
     (by omega) rfl,
   (c3_infrastructure_failure_records "m" "x" killFailEnv 1).2.2.2 rfl
     (by omega) (fun _ => rfl) rfl rfl⟩

/-! ## Lemmas about the lock retry loop -/

/-- When every attempt fails and retries are configured, the loop makes
    one attempt per remaining iteration, sleeping after each failed
    attempt, and ends in failure. -/
theorem lockAux_all_fail (attemptOk : Nat → Bool) (tries : Nat)
    (hall : ∀ j, attemptOk j = false) (htr : 1 ≤ tries) :
    ∀ left i a sl lo, left = tries + 1 - i → i ≤ tries →
      lockAux attemptOk tries left i a sl lo
        = ⟨a + (tries - i) + 1, sl + (tries - i) + 1, false⟩ := by
  intro left
  induction left with
  | zero => intro i a sl lo hl hi; omega
  | succ l ih =>
    intro i a sl lo hl hi
    have hok : attemptOk i = false := hall i
    have htr0 : ¬ tries = 0 := by omega
    rw [show lockAux attemptOk tries (l + 1) i a sl lo
        = lockAux attemptOk tries l (i + 1) (a + 1) (sl + 1) false from by
      simp [lockAux, hok, htr0]]
    by_cases hit : i = tries
    · have hl0 : l = 0 := by omega
      subst hl0
      have h0 : tries - i = 0 := by omega
      simp [lockAux, h0]
    · rw [ih (i + 1) (a + 1) (sl + 1) false (by omega) (by omega)]
      simp only [LockTrace.mk.injEq, eq_self_iff_true, and_true]
      omega

/-- When the first success is at attempt index k (0-based), the loop
    makes k + 1 attempts and k sleeps and ends in success. -/
theorem lockAux_success_at (attemptOk : Nat → Bool) (tries k : Nat)
    (hk : attemptOk k = true) (hbefore : ∀ j, j < k → attemptOk j = false)
    (htr : 1 ≤ tries) (hkt : k ≤ tries) :
    ∀ left i a sl lo, left = tries + 1 - i → i ≤ k →
      lockAux attemptOk tries left i a sl lo
        = ⟨a + (k - i) + 1, sl + (k - i), true⟩ := by
  intro left
  induction left with
  | zero => intro i a sl lo hl hi; omega
  | succ l ih =>
    intro i a sl lo hl hi
    by_cases hik : i = k
    · subst hik
      simp [lockAux, hk, Nat.sub_self]
    · have hik2 : i < k := lt_of_le_of_ne hi hik
      have hok : attemptOk i = false := hbefore i hik2
      have htr0 : ¬ tries = 0 := by omega
      rw [show lockAux attemptOk tries (l + 1) i a sl lo
          = lockAux attemptOk tries l (i + 1) (a + 1) (sl + 1) false from by
        simp [lockAux, hok, htr0]]
      rw [ih (i + 1) (a + 1) (sl + 1) false (by omega) (by omega)]
      simp only [LockTrace.mk.injEq, eq_self_iff_true, and_true]
      omega

/-- C5 counterexample: with num_retries = 1 and every attempt failing,
    the code makes 2 attempts and 2 sleeps — a sleep also follows the
    final failed attempt, so sleeps are not confined to the gaps between
    attempts (at most attempts - 1 of them) as the claim states; and with
    num_retries = 1 and a first attempt that succeeds, only 1 attempt is
    made, not the claimed exact num_retries + 1. -/
theorem c5_counterexample_trailing_sleep :
    ¬ ((lock_run (fun _ => false) 1).sleeps
        ≤ (lock_run (fun _ => false) 1).attempts - 1)
    ∧ (lock_run (fun _ => true) 1).attempts ≠ 1 + 1 := by decide

/-- C5 amended: with num_retries = 0 there is exactly one attempt and no
    sleep regardless of outcome; with num_retries >= 1 and every attempt
    failing there are num_retries + 1 attempts and num_retries + 1
    sleeps (one after every failed attempt, including the last); a first
    success at attempt index k breaks immediately with k + 1 attempts
    and k sleeps. -/
theorem c5_lock_retry_amended (attemptOk : Nat → Bool) (tries k : Nat) :
    (lock_run attemptOk 0 = ⟨1, 0, attemptOk 0⟩)
    ∧ (1 ≤ tries → (∀ j, attemptOk j = false) →
        lock_run attemptOk tries = ⟨tries + 1, tries + 1, false⟩)
    ∧ (1 ≤ tries → k ≤ tries → attemptOk k = true →
        (∀ j, j < k → attemptOk j = false) →
        lock_run attemptOk tries = ⟨k + 1, k, true⟩) := by
  refine ⟨by simp [lock_run, lockAux], ?_, ?_⟩
  · intro htr hall
    rw [lock_run,
      lockAux_all_fail attemptOk tries hall htr (tries + 1) 0 0 0 true
        (by omega) (by omega)]
    simp only [LockTrace.mk.injEq, eq_self_iff_true, and_true]
    omega
  · intro htr hkt hk hbefore
    rw [lock_run,
      lockAux_success_at attemptOk tries k hk hbefore htr hkt (tries + 1)
        0 0 0 true (by omega) (by omega)]
    simp only [LockTrace.mk.injEq, eq_self_iff_true, and_true]
    omega

/-- Concrete check for C5 amended: zero retries with a held lock makes
    one attempt, no sleep, failure (scenario D); two retries all failing
    makes 3 attempts and 3 sleeps; success at the second attempt makes 2
    attempts and 1 sleep. -/
theorem c5_lock_retry_amended_witness :
    lock_run (fun _ => false) 0 = ⟨1, 0, false⟩
    ∧ lock_run (fun _ => false) 2 = ⟨3, 3, false⟩
    ∧ lock_run (fun j => j == 1) 3 = ⟨2, 1, true⟩ :=
  ⟨(c5_lock_retry_amended (fun _ => false) 0 0).1,
   (c5_lock_retry_amended (fun _ => false) 2 0).2.1 (by omega)
     (fun _ => rfl),
   (c5_lock_retry_amended (fun j => j == 1) 3 1).2.2 (by omega) (by omega)
     rfl (fun j hj => by
       have hj0 : j = 0 := by omega
       subst hj0
       rfl)⟩

/-! ## The lock-failure control flow (C2) -/

/-- C2 counterexample: when locking fails and ignore_retry_fails is set,
    run_instance neither exits nor skips the command — it falls through
    and executes the command without the lock held, contradicting the
    claim that the flag never allows the command to run without the
    lock. -/
theorem c2_counterexample_runs_unlocked :
    ¬ (run_instance_flow true false true = InstanceFlow.exited 1
        ∨ commandRan (run_instance_flow true false true) = false) := by
  decide

/-- C2 amended: on an irrecoverable lock failure the process exits with
    status 1 without running the command when ignore_retry_fails is
    unset; when it is set, the command is executed without the lock held
    (the flag suppresses the error exit and forgoes mutual exclusion);
    when the lock is acquired the command runs with the lock held. -/
theorem c2_lock_flow_amended :
    run_instance_flow true false false = InstanceFlow.exited 1
    ∧ run_instance_flow true false true = InstanceFlow.ran false
    ∧ ∀ ig, run_instance_flow true true ig = InstanceFlow.ran true := by
  decide

/-! ## State loading (C6) -/

/-- C6 counterexample: a read failure on a file that is present but
    unreadable (not simply absent) is also treated as no prior state,
    contradicting the claim that only an absent state file is. -/
theorem c6_counterexample_unreadable_not_absent :
    CmdState.load (Except.error ReadErr.otherErr) (fun _ => none)
        = Except.ok none
    ∧ ReadErr.otherErr ≠ ReadErr.notFound :=
  ⟨rfl, by decide⟩

/-- C6 amended: load returns Ok(None) whenever the content cannot be
    read — whether the file is absent or present but unreadable — and
    returns an error exactly when content was read but fails to parse; a
    parse failure makes RunManager::new panic, while any read failure
    yields a fresh state. -/
theorem c6_load_amended (p : String → Option CmdState) (s : String)
    (v : CmdState) (e : ReadErr) (cmd : List String) :
    (CmdState.load (Except.error e) p = Except.ok none)
    ∧ (p s = none → CmdState.load (Except.ok s) p
        = Except.error "Failed to deserialize the content")
    ∧ (p s = some v → CmdState.load (Except.ok s) p = Except.ok (some v))
    ∧ (p s = none →
        managerNewState (Except.ok s) p cmd = NewOutcome.panicked)
    ∧ (managerNewState (Except.error e) p cmd
        = NewOutcome.ok (CmdState.new cmd)) := by
  refine ⟨rfl, ?_, ?_, ?_, rfl⟩ <;>
    intro h <;> simp [CmdState.load, managerNewState, h]

/-- Concrete check for C6 amended: absent file loads as None, unparseable
    content is an error, and RunManager::new panics on it. -/
theorem c6_load_amended_witness :
    CmdState.load (Except.error ReadErr.notFound) (fun _ => none)
        = Except.ok none
    ∧ CmdState.load (Except.ok "bad") (fun _ => none)
        = Except.error "Failed to deserialize the content"
    ∧ managerNewState (Except.ok "bad") (fun _ => none) ["c"]
        = NewOutcome.panicked :=
  ⟨(c6_load_amended (fun _ => none) "bad" (CmdState.new [])
      ReadErr.notFound ["c"]).1,
   (c6_load_amended (fun _ => none) "bad" (CmdState.new [])
      ReadErr.notFound ["c"]).2.1 rfl,
   (c6_load_amended (fun _ => none) "bad" (CmdState.new [])
      ReadErr.notFound ["c"]).2.2.2.1 rfl⟩

/-! ## Ledger frame effects and invariants (C7, C8, C9) -/

/-- Sample successful run record. -/
def sampleOkRun : CmdRun :=
  { exit_code := 0, stdout := "", stderr := "", start_time := 0,
    run_time := 0, rust_err := none }

/-- C7: emitting a failure report clears the buffered failures and
    touches nothing else of the persisted state: the counter and the
    command are unchanged by the report, the rendered report is the
    buffered failures followed by the triggering run, the buffer no
    longer contains the triggering record afterwards, and across the
    whole failure handling the counter is only ever incremented — it is
    reset only by CmdState::reset on success. -/
theorem c7_report_frame_effect (s : CmdState) (run : CmdRun) :
    (print_failure_report s run).1.num_fails = s.num_fails
    ∧ (print_failure_report s run).1.cmd = s.cmd
    ∧ (print_failure_report s run).1.failures = []
    ∧ run ∉ (print_failure_report s run).1.failures
    ∧ (print_failure_report s run).2 = s.failures ++ [run]
    ∧ (∀ b f : Bool, ∀ t : Nat, ∀ s2 rep,
        handle_failure b f t s run = some (s2, rep) →
          s2.num_fails = s.num_fails + 1)
    ∧ (CmdState.reset s).num_fails = 0 := by
  refine ⟨rfl, rfl, rfl, by simp [print_failure_report, CmdState.reset_runs],
    rfl, ?_, rfl⟩
  intro b f t s2 rep h
  rcases hd : failDecision b f t (s.num_fails + 1) with _ | a
  · simp [handle_failure, hd] at h
  · cases a with
    | report =>
      simp [handle_failure, hd, print_failure_report,
        CmdState.reset_runs] at h
      obtain ⟨h1, _⟩ := h
      rw [← h1]
    | buffer =>
      simp [handle_failure, hd] at h
      obtain ⟨h1, _⟩ := h
      rw [← h1]

/-- Concrete check for C7: with threshold 1 the first failure reports,
    the resulting state keeps the incremented counter. -/
theorem c7_report_frame_effect_witness :
    (CmdState.mk ["c"] 1 []).num_fails = (CmdState.mk ["c"] 0 []).num_fails + 1 :=
  (c7_report_frame_effect (CmdState.mk ["c"] 0 []) sampleOkRun).2.2.2.2.2.1
    false false 1 (CmdState.mk ["c"] 1 []) (some [sampleOkRun]) (by decide)

/-- C8: after a successful run (one the classification does not mark as
    a failure) the state is reset: the counter is 0 and the buffered
    failures are empty. -/
theorem c8_success_resets (b f : Bool) (t : Nat) (s : CmdState)
    (run : CmdRun) (h : is_failure run = false) :
    run_instance_update b f t s run = some (CmdState.reset s)
    ∧ (CmdState.reset s).num_fails = 0
    ∧ (CmdState.reset s).failures = [] := by
  refine ⟨?_, rfl, rfl⟩
  simp [run_instance_update, h]

/-- Concrete check for C8: a run with exit code 0 and no internal error
    resets a state with prior failures. -/
theorem c8_success_resets_witness :
    run_instance_update false false 1 (CmdState.mk ["c"] 4 []) sampleOkRun
      = some (CmdState.reset (CmdState.mk ["c"] 4 []))
    ∧ (CmdState.reset (CmdState.mk ["c"] 4 [])).num_fails = 0
    ∧ (CmdState.reset (CmdState.mk ["c"] 4 [])).failures = [] :=
  c8_success_resets false false 1 (CmdState.mk ["c"] 4 []) sampleOkRun
    (by decide)

/-- C9: the invariant that the buffered-failure count never exceeds the
    consecutive-failure counter holds for a fresh state and is preserved
    by the success reset and by failure handling, whether it reports
    (clearing the buffer) or buffers (incrementing the counter before
    appending). -/
theorem c9_buffer_bound_invariant (b f : Bool) (t : Nat) (s : CmdState)
    (run : CmdRun) (cmd : List String)
    (hinv : s.failures.length ≤ s.num_fails) :
    ((CmdState.new cmd).failures.length ≤ (CmdState.new cmd).num_fails)
    ∧ ((CmdState.reset s).failures.length ≤ (CmdState.reset s).num_fails)
    ∧ (∀ s2 rep, handle_failure b f t s run = some (s2, rep) →
        s2.failures.length ≤ s2.num_fails) := by
  refine ⟨by simp [CmdState.new], by simp [CmdState.reset], ?_⟩
  intro s2 rep h
  rcases hd : failDecision b f t (s.num_fails + 1) with _ | a
  · simp [handle_failure, hd] at h
  · cases a with
    | report =>
      simp [handle_failure, hd, print_failure_report,
        CmdState.reset_runs] at h
      obtain ⟨h1, _⟩ := h
      rw [← h1]
      simp
    | buffer =>
      simp [handle_failure, hd] at h
      obtain ⟨h1, _⟩ := h
      rw [← h1]
      simp only [List.length_append, List.length_cons, List.length_nil]
      omega

/-- Concrete check for C9: the invariant survives a buffering failure at
    threshold 3 from a state with one prior failure. -/
theorem c9_buffer_bound_invariant_witness :
    (CmdState.mk ["c"] 2 [sampleOkRun, sampleOkRun]).failures.length
      ≤ (CmdState.mk ["c"] 2 [sampleOkRun, sampleOkRun]).num_fails :=
  (c9_buffer_bound_invariant false false 3 (CmdState.mk ["c"] 1 [sampleOkRun])
      sampleOkRun ["c"] (by decide)).2.2
    (CmdState.mk ["c"] 2 [sampleOkRun, sampleOkRun]) none (by decide)

end Cwrap
